import Mathlib

/-!
Shallow embedding of the core of `garmin.py` (the Garmin HR Zone Injector):
the step classifier (`is_easy_step`, `has_no_target`, `should_add_hr_zone`),
the step mutation (`add_hr_zone_to_step`), the recursive tree walk
(`process_workout_steps`), the per-workout driver (`modify_workout`) and the
batch loop (`process_all_workouts`).

Modelling conventions:
  - Python dict fields are modelled as record fields.  A field that the code
    reads with `.get` (where a key that is absent and a key bound to `None`
    are treated identically) is modelled as `Option`.  The `stepType` field
    is the one field where the code distinguishes the two cases: it is read
    with `step.get("stepType", {})`, so an absent key falls back to an empty
    dict while a key bound to `None` makes the subsequent `.get` raise an
    `AttributeError`.  It is therefore modelled with the three-valued `JVal`.
  - Python exceptions are modelled with `Except String`; a function that can
    raise returns `Except String α`.
  - The `verbose` printing inside the tree walk and the console reports of the
    batch loop are modelled as an explicit event list (`Event`); `verbose` is
    fixed to `False` (its only effect is extra printing).
  - The remote service is modelled by two oracles handed to the batch loop:
    a total `fetch` function (a succeeding `get_workout_details`) and an
    `upd` function returning `Except` (a `update_workout` call that may fail).
-/

/-- Three-valued JSON field: the key is absent, the key is bound to null, or
the key is bound to a proper value.  Used where the Python code distinguishes
an absent key from a key bound to `None`. -/
inductive JVal (α : Type) where
  | absent : JVal α
  | null : JVal α
  | val : α → JVal α
deriving DecidableEq, Repr

/-- The `stepType` sub-dictionary of a workout step. -/
structure StepType where
  stepTypeKey : Option String
  stepTypeId : Option Int
deriving DecidableEq, Repr

/-- The `endCondition` sub-dictionary of a workout step. -/
structure EndCondition where
  conditionTypeKey : Option String
deriving DecidableEq, Repr

/-- The `targetType` sub-dictionary of a workout step. -/
structure TargetType where
  workoutTargetTypeId : Option Int
  workoutTargetTypeKey : Option String
deriving DecidableEq, Repr

/-- The scalar fields of a workout step (everything except the child-step
list `workoutSteps` that distinguishes a repeat group). -/
structure StepFields where
  stepType : JVal StepType
  description : Option String
  endCondition : Option EndCondition
  endConditionValue : Option Int
  targetType : Option TargetType
  targetValueOne : Option Int
  targetValueTwo : Option Int
  zoneNumber : Option Int
deriving DecidableEq, Repr

/-- EASY_STEP_KEYS from garmin.py. -/
def EASY_STEP_KEYS : List String := ["warmup", "cooldown", "recovery"]

/-- EASY_STEP_IDS from garmin.py (warmup=1, cooldown=2, recovery=3). -/
def EASY_STEP_IDS : List Int := [1, 2, 3]

/-- EASY_DESCRIPTION_PATTERNS from garmin.py. -/
def EASY_DESCRIPTION_PATTERNS : List String := ["conversational", "easy", "slow"]

/-- HARD_DESCRIPTION_PATTERNS from garmin.py. -/
def HARD_DESCRIPTION_PATTERNS : List String :=
  ["pushing", "fast", "hard", "tempo", "threshold", "race", "sprint"]

/-- HR_ZONE_TARGET_TYPE from garmin.py: target type id 4, key heart.rate.zone. -/
def HR_ZONE_TARGET_TYPE : TargetType :=
  { workoutTargetTypeId := some 4, workoutTargetTypeKey := some "heart.rate.zone" }

/-- NO_TARGET_TYPE_ID from garmin.py. -/
def NO_TARGET_TYPE_ID : Int := 1

/-- DEFAULT_HR_ZONE from garmin.py. -/
def DEFAULT_HR_ZONE : Int := 2

/-- ASCII lowering on the character list, modelling Python `str.lower()`
(every marker and type key the program compares against is ASCII). -/
def strToLower (s : String) : String :=
  String.mk (s.toList.map Char.toLower)

/-- Check that `hay` starts with `needle` (on character lists). -/
def charsStartWith : List Char → List Char → Bool
  | [], _ => true
  | _ :: _, [] => false
  | a :: as, h :: hs => a == h && charsStartWith as hs

/-- Check that `needle` occurs contiguously somewhere in the character list. -/
def charsContain (needle : List Char) : List Char → Bool
  | [] => charsStartWith needle []
  | h :: hs => charsStartWith needle (h :: hs) || charsContain needle hs

/-- Python substring containment `pattern in haystack` on strings. -/
def strContains (haystack pattern : String) : Bool :=
  charsContain pattern.toList haystack.toList

/-- Loop `for pattern in HARD_DESCRIPTION_PATTERNS: if pattern in description`
from `is_easy_step` (an early return from the loop equals `any`). -/
def has_hard_pattern (description : String) : Bool :=
  HARD_DESCRIPTION_PATTERNS.any (fun p => strContains description p)

/-- Loop `for pattern in EASY_DESCRIPTION_PATTERNS: if pattern in description`
from `is_easy_step`. -/
def has_easy_pattern (description : String) : Bool :=
  EASY_DESCRIPTION_PATTERNS.any (fun p => strContains description p)

/-- Body of `is_easy_step` once `step_key`, `step_id` and `description` have
been extracted: the hard-marker check, then the easy key/id check, then the
interval rule, else not easy. -/
def is_easy_fields (step_key : String) (step_id : Option Int) (description : String) : Bool :=
  if has_hard_pattern description then
    false
  else if EASY_STEP_KEYS.contains step_key
      || (match step_id with
          | some i => EASY_STEP_IDS.contains i
          | none => false) then
    true
  else if step_key == "interval" || step_id == some 3 then
    has_easy_pattern description
  else
    false

/-- Lowered description `(step.get("description") or "").lower()`. -/
def step_description (step : StepFields) : String :=
  strToLower (step.description.getD "")

/-- The classifier `is_easy_step` from garmin.py.  Reading `stepType` with
`step.get("stepType", {})` falls back to an empty dict when the key is
absent, but raises an `AttributeError` when the key is bound to `None`
(calling `.get` on `None`). -/
def is_easy_step (step : StepFields) : Except String Bool :=
  match step.stepType with
  | JVal.null => Except.error "AttributeError: NoneType object has no attribute get"
  | JVal.absent => Except.ok (is_easy_fields "" none (step_description step))
  | JVal.val st =>
      Except.ok (is_easy_fields (strToLower (st.stepTypeKey.getD "")) st.stepTypeId
        (step_description step))

/-- The predicate `has_no_target` from garmin.py: no target dict, or a target
dict whose `workoutTargetTypeId` is null/absent or the sentinel id 1. -/
def has_no_target (step : StepFields) : Bool :=
  match step.targetType with
  | none => true
  | some tt =>
      match tt.workoutTargetTypeId with
      | none => true
      | some target_id => target_id == NO_TARGET_TYPE_ID

/-- The decision `should_add_hr_zone` from garmin.py:
`is_easy_step(step) and has_no_target(step)`; an exception raised by
`is_easy_step` propagates. -/
def should_add_hr_zone (step : StepFields) : Except String Bool :=
  match is_easy_step step with
  | Except.error e => Except.error e
  | Except.ok easy => Except.ok (easy && has_no_target step)

/-- The mutation `add_hr_zone_to_step` from garmin.py: set the four target
fields, leave everything else alone. -/
def add_hr_zone_to_step (hr_zone : Int) (step : StepFields) : StepFields :=
  { step with
    targetType := some HR_ZONE_TARGET_TYPE
    targetValueOne := some hr_zone
    targetValueTwo := none
    zoneNumber := some hr_zone }

/-- A workout step: a leaf step, or a repeat group, i.e. a step dict that
carries the `workoutSteps` key (possibly bound to an empty list). -/
inductive Step where
  | leaf (f : StepFields)
  | group (f : StepFields) (children : List Step)

mutual

/-- Body of one iteration of the loop in `process_workout_steps`: a step that
carries the `workoutSteps` key gets its children recursed into, any other
step is classified and possibly mutated. -/
def processStep (hr_zone : Int) : Step → Nat → Except String (Step × Nat)
  | Step.group f children, modified_count =>
      match process_workout_steps hr_zone children modified_count with
      | Except.error e => Except.error e
      | Except.ok (nested_steps, n1) => Except.ok (Step.group f nested_steps, n1)
  | Step.leaf f, modified_count =>
      match should_add_hr_zone f with
      | Except.error e => Except.error e
      | Except.ok true =>
          Except.ok (Step.leaf (add_hr_zone_to_step hr_zone f), modified_count + 1)
      | Except.ok false => Except.ok (Step.leaf f, modified_count)

/-- The tree walk `process_workout_steps` from garmin.py, with the running
`modified_count` threaded through exactly as in the source (verbose printing
omitted). -/
def process_workout_steps (hr_zone : Int) :
    List Step → Nat → Except String (List Step × Nat)
  | [], modified_count => Except.ok ([], modified_count)
  | step :: rest, modified_count =>
      match processStep hr_zone step modified_count with
      | Except.error e => Except.error e
      | Except.ok (s1, n1) =>
          match process_workout_steps hr_zone rest n1 with
          | Except.error e => Except.error e
          | Except.ok (rs, n2) => Except.ok (s1 :: rs, n2)

end

/-- A workout segment: may or may not carry the `workoutSteps` key. -/
structure Segment where
  workoutSteps : Option (List Step)

/-- The `sportType` sub-dictionary of a workout summary. -/
structure SportType where
  sportTypeKey : Option String
deriving DecidableEq, Repr

/-- A full workout as fetched by `get_workout_details`. -/
structure Workout where
  workoutId : Option Int
  workoutName : Option String
  sportType : Option SportType
  workoutSegments : Option (List Segment)

/-- Loop over `workout["workoutSegments"]` in `modify_workout`: a segment
that carries `workoutSteps` is walked with an initial count of 0, and the
per-segment counts are summed into `total_modified`. -/
def modify_segments (hr_zone : Int) : List Segment → Except String (List Segment × Nat)
  | [] => Except.ok ([], 0)
  | seg :: rest =>
      match seg.workoutSteps with
      | none =>
          match modify_segments hr_zone rest with
          | Except.error e => Except.error e
          | Except.ok (rs, m) => Except.ok (seg :: rs, m)
      | some steps =>
          match process_workout_steps hr_zone steps 0 with
          | Except.error e => Except.error e
          | Except.ok (ns, modified) =>
              match modify_segments hr_zone rest with
              | Except.error e => Except.error e
              | Except.ok (rs, m) =>
                  Except.ok ({ seg with workoutSteps := some ns } :: rs, modified + m)

/-- The driver `modify_workout` from garmin.py: a workout without the
`workoutSegments` key is returned unchanged with count 0, otherwise every
segment is processed and the counts are summed. -/
def modify_workout (hr_zone : Int) (workout : Workout) : Except String (Workout × Nat) :=
  match workout.workoutSegments with
  | none => Except.ok (workout, 0)
  | some segs =>
      match modify_segments hr_zone segs with
      | Except.error e => Except.error e
      | Except.ok (segs2, total_modified) =>
          Except.ok ({ workout with workoutSegments := some segs2 }, total_modified)

mutual

/-- Number of qualifying leaves of one step: 1 for a leaf on which
`should_add_hr_zone` succeeds with `true`, 0 for any other leaf, and the sum
over the children for a repeat group (a group is never counted itself). -/
def step_qualifying_count : Step → Nat
  | Step.leaf f =>
      match should_add_hr_zone f with
      | Except.ok true => 1
      | _ => 0
  | Step.group _ children => steps_qualifying_count children

/-- Number of qualifying leaves of a step list. -/
def steps_qualifying_count : List Step → Nat
  | [] => 0
  | s :: rest => step_qualifying_count s + steps_qualifying_count rest

end

mutual

/-- No leaf of this step has its `stepType` key bound to null (the one shape
on which the classifier raises). -/
def step_no_null_type : Step → Bool
  | Step.leaf f => !(f.stepType == JVal.null)
  | Step.group _ children => steps_no_null_type children

/-- No leaf at any depth of the list has `stepType` bound to null. -/
def steps_no_null_type : List Step → Bool
  | [] => true
  | s :: rest => step_no_null_type s && steps_no_null_type rest

end

mutual

/-- Frame relation between an input step and an output step of the walk:
the constructor is the same; a repeat group keeps its own fields and relates
its children pointwise; a leaf is either untouched, or is exactly the
`add_hr_zone_to_step` mutation of the input, which preserves every field
other than the four target fields. -/
def frame_step (hr_zone : Int) : Step → Step → Prop
  | Step.leaf f, Step.leaf g =>
      g = f ∨
        (g.stepType = f.stepType ∧ g.description = f.description ∧
         g.endCondition = f.endCondition ∧ g.endConditionValue = f.endConditionValue ∧
         g = add_hr_zone_to_step hr_zone f)
  | Step.group f cs, Step.group g ds => g = f ∧ frame_steps hr_zone cs ds
  | _, _ => False

/-- Pointwise frame relation between step lists: same length, same order. -/
def frame_steps (hr_zone : Int) : List Step → List Step → Prop
  | [], [] => True
  | s :: rest, t :: rest2 => frame_step hr_zone s t ∧ frame_steps hr_zone rest rest2
  | _, _ => False

end

/-- Blank step: every key absent. -/
def blankStep : StepFields :=
  { stepType := JVal.absent, description := none, endCondition := none,
    endConditionValue := none, targetType := none, targetValueOne := none,
    targetValueTwo := none, zoneNumber := none }

/-- A workout summary as returned by the workout listing. -/
structure WorkoutSummary where
  workoutId : Option Int
  workoutName : Option String
  sportType : Option SportType

/-- Console reports of the batch loop (the prints of `process_all_workouts`
that are not guarded by `verbose`). -/
inductive Event where
  | processing (workout_name : String) (workout_id : Option Int)
  | noChanges
  | modifiedSteps (modified_count : Nat) (hr_zone : Int)
  | dryRun
  | updating
  | updated
  | updateFailed (e : String)
  | summary (modified_total : Nat) (processed : Nat)
deriving DecidableEq, Repr

/-- Body of one iteration of the loop in `process_all_workouts`: skip on
sport type, skip on the name filter (a configured empty filter string is
falsy in Python and does not filter), fetch, modify, then report; the
external update is attempted only when the count is nonzero and dry-run is
off, and a failing update is caught and reported.  Returns the events
together with the contributions to `modified_total` and `processed`. -/
def sport_type_of (ws : WorkoutSummary) : String :=
  match ws.sportType with
  | some st => st.sportTypeKey.getD ""
  | none => ""

/-- The name-filter skip condition `filter_name and filter_name.lower() not in
workout_name.lower()`: a configured empty filter string is falsy in Python
and does not filter. -/
def name_filtered_out (filter_name : Option String) (workout_name : String) : Bool :=
  match filter_name with
  | some fname =>
      fname != "" && !(strContains (strToLower workout_name) (strToLower fname))
  | none => false

def process_one (hr_zone : Int) (dry_run : Bool) (filter_name : Option String)
    (fetch : Option Int → Workout) (upd : Workout → Except String Unit)
    (ws : WorkoutSummary) : Except String (List Event × Nat × Nat) :=
  if sport_type_of ws != "running" then Except.ok ([], 0, 0)
  else if name_filtered_out filter_name (ws.workoutName.getD "Unknown") then
    Except.ok ([], 0, 0)
  else
    match modify_workout hr_zone (fetch ws.workoutId) with
    | Except.error e => Except.error e
    | Except.ok (modified_workout, modified_count) =>
        if modified_count == 0 then
          Except.ok ([Event.processing (ws.workoutName.getD "Unknown") ws.workoutId,
                      Event.noChanges], 0, 0)
        else if dry_run then
          Except.ok ([Event.processing (ws.workoutName.getD "Unknown") ws.workoutId,
                      Event.modifiedSteps modified_count hr_zone, Event.dryRun],
                     modified_count, 0)
        else
          match upd modified_workout with
          | Except.ok _ =>
              Except.ok ([Event.processing (ws.workoutName.getD "Unknown") ws.workoutId,
                          Event.modifiedSteps modified_count hr_zone,
                          Event.updating, Event.updated], modified_count, 1)
          | Except.error e =>
              Except.ok ([Event.processing (ws.workoutName.getD "Unknown") ws.workoutId,
                          Event.modifiedSteps modified_count hr_zone,
                          Event.updating, Event.updateFailed e], modified_count, 0)

/-- The `for workout_summary in workouts` loop of `process_all_workouts`,
threading the `modified_total` and `processed` accumulators exactly as in the
source.  Only the update call is inside a try block; any other exception
(fetch or classification) aborts the whole loop. -/
def process_workouts_loop (hr_zone : Int) (dry_run : Bool) (filter_name : Option String)
    (fetch : Option Int → Workout) (upd : Workout → Except String Unit) :
    List WorkoutSummary → Nat → Nat → Except String (List Event × Nat × Nat)
  | [], modified_total, processed => Except.ok ([], modified_total, processed)
  | ws :: rest, modified_total, processed =>
      match process_one hr_zone dry_run filter_name fetch upd ws with
      | Except.error e => Except.error e
      | Except.ok (evts, dm, dp) =>
          match process_workouts_loop hr_zone dry_run filter_name fetch upd rest
              (modified_total + dm) (processed + dp) with
          | Except.error e => Except.error e
          | Except.ok (evts2, mT, pT) => Except.ok (evts ++ evts2, mT, pT)

/-- The batch driver `process_all_workouts` from garmin.py: run the loop from
zeroed accumulators and print the final summary line. -/
def process_all_workouts (hr_zone : Int) (dry_run : Bool) (filter_name : Option String)
    (fetch : Option Int → Workout) (upd : Workout → Except String Unit)
    (workouts : List WorkoutSummary) : Except String (List Event) :=
  match process_workouts_loop hr_zone dry_run filter_name fetch upd workouts 0 0 with
  | Except.error e => Except.error e
  | Except.ok (evts, modified_total, processed) =>
      Except.ok (evts ++ [Event.summary modified_total processed])

/-- Concrete warmup leaf (type key warmup, id 1) with no target. -/
def warmupStep : StepFields :=
  { blankStep with stepType := JVal.val { stepTypeKey := some "warmup", stepTypeId := some 1 } }

/-- Concrete interval leaf (type key interval, id 6) with a given description. -/
def intervalStep (d : Option String) : StepFields :=
  { blankStep with
    stepType := JVal.val { stepTypeKey := some "interval", stepTypeId := some 6 },
    description := d }

/-- Concrete depth-3 tree for the C5 and C6 witnesses: a qualifying warmup
leaf at top level, a group holding a group holding another qualifying warmup
leaf, and a non-qualifying interval leaf. -/
def nestedSteps : List Step :=
  [Step.leaf warmupStep,
   Step.group blankStep
     [Step.group blankStep [Step.leaf warmupStep], Step.leaf (intervalStep none)]]

/-- Output of the walk on `nestedSteps` with zone 2. -/
def nestedStepsOut : List Step :=
  [Step.leaf (add_hr_zone_to_step 2 warmupStep),
   Step.group blankStep
     [Step.group blankStep [Step.leaf (add_hr_zone_to_step 2 warmupStep)],
      Step.leaf (intervalStep none)]]

mutual

/-- Total node count of one step (the node itself plus all descendants). -/
def step_node_count : Step → Nat
  | Step.leaf _ => 1
  | Step.group _ children => 1 + steps_node_count children

/-- Total node count of a step list. -/
def steps_node_count : List Step → Nat
  | [] => 0
  | s :: rest => step_node_count s + steps_node_count rest

end

/-- Step with type key interval but type id 3 (the recovery id, which is
also in EASY_STEP_IDS), and an empty description. -/
def intervalId3Step : StepFields :=
  { blankStep with
    stepType := JVal.val { stepTypeKey := some "interval", stepTypeId := some 3 } }

/-- Step whose stepType key is bound to null. -/
def nullTypeStep : StepFields := { blankStep with stepType := JVal.null }

/-- Sport type record for running, used by the C9 witness. -/
def runningSport : Option SportType := some { sportTypeKey := some "running" }

/-- Workout summary whose update will fail in the C9 witness. -/
def wsFail : WorkoutSummary :=
  { workoutId := some 11, workoutName := some "Runna A", sportType := runningSport }

/-- Workout summary whose update will succeed in the C9 witness. -/
def wsOk : WorkoutSummary :=
  { workoutId := some 12, workoutName := some "Runna B", sportType := runningSport }

/-- Fetch oracle for the C9 witness: every workout has one segment holding
one qualifying warmup leaf. -/
def fetchOracle (i : Option Int) : Workout :=
  { workoutId := i, workoutName := some "Runna run", sportType := runningSport,
    workoutSegments := some [{ workoutSteps := some [Step.leaf warmupStep] }] }

/-- The mutated workout the walk produces from `fetchOracle i` with zone 2. -/
def fetchOracleMut (i : Option Int) : Workout :=
  { fetchOracle i with
    workoutSegments :=
      some [{ workoutSteps := some [Step.leaf (add_hr_zone_to_step 2 warmupStep)] }] }

/-- Update oracle for the C9 witness: fails for workout id 11, succeeds
otherwise. -/
def updOracle : Workout → Except String Unit := fun w =>
  if w.workoutId == some 11 then Except.error "HTTP 500" else Except.ok ()

/-- Unfolding of a successful `should_add_hr_zone`: the decision is `true`
exactly when the classifier succeeds with easy and the step has no target. -/
theorem should_add_hr_zone_ok_true (f : StepFields) :
    should_add_hr_zone f = Except.ok true ↔
      is_easy_step f = Except.ok true ∧ has_no_target f = true := by
  cases he : is_easy_step f with
  | error e => simp [should_add_hr_zone, he]
  | ok easy => cases easy <;> simp [should_add_hr_zone, he]

/-- The mutation does not change the fields the classifier reads. -/
theorem is_easy_step_add (hr_zone : Int) (f : StepFields) :
    is_easy_step (add_hr_zone_to_step hr_zone f) = is_easy_step f := rfl

/-- The mutated step carries target type id 4, which is neither absent nor
the sentinel, so `has_no_target` is false on it. -/
theorem has_no_target_add (hr_zone : Int) (f : StepFields) :
    has_no_target (add_hr_zone_to_step hr_zone f) = false := rfl

/-- After the mutation the step no longer qualifies. -/
theorem should_add_hr_zone_add (hr_zone : Int) (f : StepFields)
    (he : is_easy_step f = Except.ok true) :
    should_add_hr_zone (add_hr_zone_to_step hr_zone f) = Except.ok false := by
  simp [should_add_hr_zone, is_easy_step_add, he, has_no_target_add]

mutual

/-- Soundness of one loop iteration of the walk: on success the count grows
by the number of qualifying leaves of the step, the output step is related
to the input by the frame relation, and re-running the walk on the output
step succeeds from any count without further changes. -/
theorem processStep_sound (hr_zone : Int) (s : Step) (n : Nat) (s2 : Step) (n2 : Nat)
    (h : processStep hr_zone s n = Except.ok (s2, n2)) :
    n2 = n + step_qualifying_count s ∧ frame_step hr_zone s s2 ∧
      ∀ m, processStep hr_zone s2 m = Except.ok (s2, m) := by
  cases s with
  | leaf f =>
    cases hsa : should_add_hr_zone f with
    | error e => simp [processStep, hsa] at h
    | ok b =>
      cases b with
      | true =>
        simp only [processStep, hsa] at h
        obtain ⟨hs2, hn2⟩ := Prod.mk.injEq .. ▸ (Except.ok.injEq .. ▸ h)
        have he : is_easy_step f = Except.ok true :=
          ((should_add_hr_zone_ok_true f).mp hsa).1
        refine ⟨?_, ?_, ?_⟩
        · simp [step_qualifying_count, hsa, ← hn2]
        · rw [← hs2]
          exact Or.inr ⟨rfl, rfl, rfl, rfl, rfl⟩
        · intro m
          rw [← hs2]
          simp [processStep, should_add_hr_zone_add hr_zone f he]
      | false =>
        simp only [processStep, hsa] at h
        obtain ⟨hs2, hn2⟩ := Prod.mk.injEq .. ▸ (Except.ok.injEq .. ▸ h)
        refine ⟨?_, ?_, ?_⟩
        · simp [step_qualifying_count, hsa, ← hn2]
        · rw [← hs2]
          exact Or.inl rfl
        · intro m
          rw [← hs2]
          simp [processStep, hsa]
  | group f cs =>
    cases hcs : process_workout_steps hr_zone cs n with
    | error e => simp [processStep, hcs] at h
    | ok p =>
      obtain ⟨ns, n1⟩ := p
      simp only [processStep, hcs] at h
      obtain ⟨hs2, hn2⟩ := Prod.mk.injEq .. ▸ (Except.ok.injEq .. ▸ h)
      obtain ⟨ihc, ihf, ihi⟩ := process_workout_steps_sound hr_zone cs n ns n1 hcs
      refine ⟨?_, ?_, ?_⟩
      · simp [step_qualifying_count, ← hn2, ihc]
      · rw [← hs2]
        exact ⟨rfl, ihf⟩
      · intro m
        rw [← hs2]
        simp [processStep, ihi m]

/-- Soundness of the walk on a step list (see `processStep_sound`). -/
theorem process_workout_steps_sound (hr_zone : Int) (l : List Step) (n : Nat)
    (l2 : List Step) (n2 : Nat)
    (h : process_workout_steps hr_zone l n = Except.ok (l2, n2)) :
    n2 = n + steps_qualifying_count l ∧ frame_steps hr_zone l l2 ∧
      ∀ m, process_workout_steps hr_zone l2 m = Except.ok (l2, m) := by
  cases l with
  | nil =>
    simp only [process_workout_steps] at h
    obtain ⟨hl2, hn2⟩ := Prod.mk.injEq .. ▸ (Except.ok.injEq .. ▸ h)
    rw [← hl2, ← hn2]
    exact ⟨by simp [steps_qualifying_count], trivial, fun m => rfl⟩
  | cons s rest =>
    cases hs : processStep hr_zone s n with
    | error e => simp [process_workout_steps, hs] at h
    | ok p =>
      obtain ⟨s1, n1⟩ := p
      simp only [process_workout_steps, hs] at h
      cases hr : process_workout_steps hr_zone rest n1 with
      | error e => rw [hr] at h; exact absurd h (by simp)
      | ok q =>
        obtain ⟨rs, nr⟩ := q
        rw [hr] at h
        dsimp only at h
        obtain ⟨hl2, hn2⟩ := Prod.mk.injEq .. ▸ (Except.ok.injEq .. ▸ h)
        obtain ⟨ihc1, ihf1, ihi1⟩ := processStep_sound hr_zone s n s1 n1 hs
        obtain ⟨ihc2, ihf2, ihi2⟩ := process_workout_steps_sound hr_zone rest n1 rs nr hr
        refine ⟨?_, ?_, ?_⟩
        · rw [← hn2, ihc2, ihc1]
          simp [steps_qualifying_count]
          omega
        · rw [← hl2]
          exact ⟨ihf1, ihf2⟩
        · intro m
          rw [← hl2]
          simp [process_workout_steps, ihi1 m, ihi2 m]

end

mutual

/-- Totality of one loop iteration of the walk on steps with no null
`stepType` at any leaf. -/
theorem processStep_total (hr_zone : Int) (s : Step) (n : Nat)
    (h : step_no_null_type s = true) :
    ∃ r, processStep hr_zone s n = Except.ok r := by
  cases s with
  | leaf f =>
    obtain ⟨b, hb⟩ : ∃ b, should_add_hr_zone f = Except.ok b := by
      cases hst : f.stepType with
      | null => simp [step_no_null_type, hst] at h
      | absent =>
          exact ⟨is_easy_fields "" none (step_description f) && has_no_target f,
            by simp [should_add_hr_zone, is_easy_step, hst]⟩
      | val st =>
          exact ⟨is_easy_fields (strToLower (st.stepTypeKey.getD "")) st.stepTypeId
              (step_description f) && has_no_target f,
            by simp [should_add_hr_zone, is_easy_step, hst]⟩
    cases b with
    | true => exact ⟨(Step.leaf (add_hr_zone_to_step hr_zone f), n + 1), by simp [processStep, hb]⟩
    | false => exact ⟨(Step.leaf f, n), by simp [processStep, hb]⟩
  | group f cs =>
    obtain ⟨⟨ns, n1⟩, hns⟩ :=
      process_workout_steps_total hr_zone cs n (by simpa [step_no_null_type] using h)
    exact ⟨(Step.group f ns, n1), by simp [processStep, hns]⟩

/-- Totality of the walk on step lists with no null `stepType` at any leaf. -/
theorem process_workout_steps_total (hr_zone : Int) (l : List Step) (n : Nat)
    (h : steps_no_null_type l = true) :
    ∃ r, process_workout_steps hr_zone l n = Except.ok r := by
  cases l with
  | nil => exact ⟨([], n), rfl⟩
  | cons s rest =>
    simp only [steps_no_null_type, Bool.and_eq_true] at h
    obtain ⟨h1, h2⟩ := h
    obtain ⟨⟨s1, n1⟩, hs⟩ := processStep_total hr_zone s n h1
    obtain ⟨⟨rs, nr⟩, hrt⟩ := process_workout_steps_total hr_zone rest n1 h2
    exact ⟨(s1 :: rs, nr), by simp [process_workout_steps, hs, hrt]⟩

end

/-- The loop of `process_all_workouts` splits over list append, threading the
two accumulators through the first part into the second. -/
theorem process_workouts_loop_append (hr_zone : Int) (dry_run : Bool)
    (filter_name : Option String) (fetch : Option Int → Workout)
    (upd : Workout → Except String Unit)
    (l1 l2 : List WorkoutSummary) (m p : Nat) (e1 : List Event) (m1 p1 : Nat)
    (e2 : List Event) (m2 p2 : Nat)
    (h1 : process_workouts_loop hr_zone dry_run filter_name fetch upd l1 m p =
      Except.ok (e1, m1, p1))
    (h2 : process_workouts_loop hr_zone dry_run filter_name fetch upd l2 m1 p1 =
      Except.ok (e2, m2, p2)) :
    process_workouts_loop hr_zone dry_run filter_name fetch upd (l1 ++ l2) m p =
      Except.ok (e1 ++ e2, m2, p2) := by
  induction l1 generalizing m p e1 m1 p1 with
  | nil =>
    simp only [process_workouts_loop, Except.ok.injEq, Prod.mk.injEq] at h1
    obtain ⟨he, hm, hp⟩ := h1
    subst he; subst hm; subst hp
    simpa using h2
  | cons ws rest ih =>
    simp only [List.cons_append, process_workouts_loop] at h1 ⊢
    cases ho : process_one hr_zone dry_run filter_name fetch upd ws with
    | error e => rw [ho] at h1; simp at h1
    | ok t =>
      obtain ⟨evts, dm, dp⟩ := t
      rw [ho] at h1
      dsimp only at h1 ⊢
      cases hrest : process_workouts_loop hr_zone dry_run filter_name fetch upd rest
          (m + dm) (p + dp) with
      | error e => rw [hrest] at h1; simp at h1
      | ok q =>
        obtain ⟨er, mr, pr⟩ := q
        rw [hrest] at h1
        dsimp only at h1
        simp only [Except.ok.injEq, Prod.mk.injEq] at h1
        obtain ⟨he, hm, hp⟩ := h1
        subst he
        have h2x : process_workouts_loop hr_zone dry_run filter_name fetch upd l2 mr pr =
            Except.ok (e2, m2, p2) := by rw [hm, hp]; exact h2
        have hIH := ih (m + dm) (p + dp) er mr pr hrest h2x
        simp only [List.append_eq] at hIH ⊢
        rw [hIH]
        simp [List.append_assoc]

/-- C1: Idempotence of the mutation pass: a second run of the tree walk on
the output of a successful first run succeeds, changes nothing, and counts
zero additional modifications. -/
theorem mutation_pass_idempotent (hr_zone : Int) (steps steps2 : List Step) (n : Nat)
    (h : process_workout_steps hr_zone steps 0 = Except.ok (steps2, n)) :
    process_workout_steps hr_zone steps2 0 = Except.ok (steps2, 0) :=
  (process_workout_steps_sound hr_zone steps 0 steps2 n h).2.2 0

/-- Witness for C1: one warmup leaf is mutated on the first pass and the
second pass leaves the result alone with count 0. -/
theorem mutation_pass_idempotent_witness :
    process_workout_steps 2 [Step.leaf (add_hr_zone_to_step 2 warmupStep)] 0 =
      Except.ok ([Step.leaf (add_hr_zone_to_step 2 warmupStep)], 0) :=
  mutation_pass_idempotent 2 [Step.leaf warmupStep]
    [Step.leaf (add_hr_zone_to_step 2 warmupStep)] 1 (by rfl)

/-- C2: Hard-marker priority: a leaf step whose lowered description contains
a hard-effort marker is never classified easy and never mutated, whatever
its type key or id; whenever the classifier returns at all (any `stepType`
other than the null binding, on which it raises) it returns exactly
`not easy` and `do not add`. -/
theorem hard_marker_priority (f : StepFields)
    (h : has_hard_pattern (step_description f) = true) :
    is_easy_step f ≠ Except.ok true ∧ should_add_hr_zone f ≠ Except.ok true ∧
      (f.stepType ≠ JVal.null →
        is_easy_step f = Except.ok false ∧ should_add_hr_zone f = Except.ok false) := by
  cases hst : f.stepType with
  | null =>
    refine ⟨by simp [is_easy_step, hst], by simp [should_add_hr_zone, is_easy_step, hst],
      fun hne => absurd rfl hne⟩
  | absent =>
    have he : is_easy_step f = Except.ok false := by
      simp [is_easy_step, hst, is_easy_fields, h]
    have hs : should_add_hr_zone f = Except.ok false := by
      simp [should_add_hr_zone, he]
    exact ⟨by simp [he], by simp [hs], fun _ => ⟨he, hs⟩⟩
  | val st =>
    have he : is_easy_step f = Except.ok false := by
      simp [is_easy_step, hst, is_easy_fields, h]
    have hs : should_add_hr_zone f = Except.ok false := by
      simp [should_add_hr_zone, he]
    exact ⟨by simp [he], by simp [hs], fun _ => ⟨he, hs⟩⟩

/-- Witness for C2: a warmup-typed step described with the word Tempo is not
easy although its type key is warmup. -/
theorem hard_marker_priority_witness :
    is_easy_step { warmupStep with description := some "20 min Tempo" } ≠ Except.ok true ∧
    should_add_hr_zone { warmupStep with description := some "20 min Tempo" } ≠
      Except.ok true ∧
    (({ warmupStep with description := some "20 min Tempo" } : StepFields).stepType ≠
        JVal.null →
      is_easy_step { warmupStep with description := some "20 min Tempo" } =
          Except.ok false ∧
        should_add_hr_zone { warmupStep with description := some "20 min Tempo" } =
          Except.ok false) := by
  exact hard_marker_priority { warmupStep with description := some "20 min Tempo" }
    (by rfl)

/-- C4: The mutation decision is exactly easy-and-no-target, and no-target is
exactly absent target, absent/null target id, or the sentinel id. -/
theorem mutation_decision (f : StepFields) :
    (should_add_hr_zone f = Except.ok true ↔
      is_easy_step f = Except.ok true ∧ has_no_target f = true) ∧
    (has_no_target f = true ↔
      (f.targetType = none ∨
        ∃ tt, f.targetType = some tt ∧
          (tt.workoutTargetTypeId = none ∨
            tt.workoutTargetTypeId = some NO_TARGET_TYPE_ID))) := by
  refine ⟨should_add_hr_zone_ok_true f, ?_⟩
  cases htt : f.targetType with
  | none => simp [has_no_target, htt]
  | some tt =>
    cases hid : tt.workoutTargetTypeId with
    | none => simp [has_no_target, htt, hid]
    | some i => simp [has_no_target, htt, hid, beq_iff_eq]

/-- C5: On success the count returned by the walk grows by exactly the
number of leaves, at any depth, on which `should_add_hr_zone` holds. -/
theorem recursive_count_correct (hr_zone : Int) (steps steps2 : List Step) (n n2 : Nat)
    (h : process_workout_steps hr_zone steps n = Except.ok (steps2, n2)) :
    n2 = n + steps_qualifying_count steps :=
  (process_workout_steps_sound hr_zone steps n steps2 n2 h).1

/-- Witness for C5 on the depth-3 tree: two qualifying leaves, count 2. -/
theorem recursive_count_correct_witness :
    (2 : Nat) = 0 + steps_qualifying_count nestedSteps :=
  recursive_count_correct 2 nestedSteps nestedStepsOut 0 2 (by rfl)

/-- The frame relation forces equal top-level length. -/
theorem frame_steps_length (hr_zone : Int) (l l2 : List Step)
    (h : frame_steps hr_zone l l2) : l2.length = l.length := by
  induction l generalizing l2 with
  | nil =>
    cases l2 with
    | nil => rfl
    | cons t r => exact absurd h (by simp [frame_steps])
  | cons s r ih =>
    cases l2 with
    | nil => exact absurd h (by simp [frame_steps])
    | cons t r2 =>
      simp only [frame_steps] at h
      simp [ih r2 h.2]

mutual

/-- The frame relation forces equal total node count, step version. -/
theorem frame_step_node_count (hr_zone : Int) (s t : Step) (h : frame_step hr_zone s t) :
    step_node_count t = step_node_count s := by
  cases s with
  | leaf f =>
    cases t with
    | leaf g => rfl
    | group g ds => exact absurd h (by simp [frame_step])
  | group f cs =>
    cases t with
    | leaf g => exact absurd h (by simp [frame_step])
    | group g ds =>
      simp only [frame_step] at h
      simp [step_node_count, frame_steps_node_count hr_zone cs ds h.2]

/-- The frame relation forces equal total node count, list version. -/
theorem frame_steps_node_count (hr_zone : Int) (l l2 : List Step)
    (h : frame_steps hr_zone l l2) : steps_node_count l2 = steps_node_count l := by
  cases l with
  | nil =>
    cases l2 with
    | nil => rfl
    | cons t r => exact absurd h (by simp [frame_steps])
  | cons s r =>
    cases l2 with
    | nil => exact absurd h (by simp [frame_steps])
    | cons t r2 =>
      simp only [frame_steps] at h
      simp [steps_node_count, frame_step_node_count hr_zone s t h.1,
        frame_steps_node_count hr_zone r r2 h.2]

end

/-- C6: Shape and frame preservation: on success the output tree is related
to the input by the frame relation (same constructors, same order, repeat
groups keep all their own fields, every leaf is either untouched or exactly
the target-field mutation, which keeps step-type, description and
end-condition), and both top-level length and total node count agree. -/
theorem shape_frame_preservation (hr_zone : Int) (steps steps2 : List Step) (n n2 : Nat)
    (h : process_workout_steps hr_zone steps n = Except.ok (steps2, n2)) :
    frame_steps hr_zone steps steps2 ∧ steps2.length = steps.length ∧
      steps_node_count steps2 = steps_node_count steps := by
  have hf := (process_workout_steps_sound hr_zone steps n steps2 n2 h).2.1
  exact ⟨hf, frame_steps_length hr_zone steps steps2 hf,
    frame_steps_node_count hr_zone steps steps2 hf⟩

/-- Witness for C6 on the depth-3 tree. -/
theorem shape_frame_preservation_witness :
    frame_steps 2 nestedSteps nestedStepsOut ∧
      nestedStepsOut.length = nestedSteps.length ∧
      steps_node_count nestedStepsOut = steps_node_count nestedSteps :=
  shape_frame_preservation 2 nestedSteps nestedStepsOut 0 2 (by rfl)

/-- C7: Easy-type rule: a leaf step whose raw type key is one of warmup,
cooldown, recovery, or whose type id is one of 1, 2, 3, and whose lowered
description contains no hard-effort marker, is classified easy. -/
theorem easy_type_rule (f : StepFields) (st : StepType)
    (hst : f.stepType = JVal.val st)
    (hnohard : has_hard_pattern (step_description f) = false)
    (hkeyid : (∃ k, st.stepTypeKey = some k ∧ k ∈ EASY_STEP_KEYS) ∨
      (∃ i, st.stepTypeId = some i ∧ i ∈ EASY_STEP_IDS)) :
    is_easy_step f = Except.ok true := by
  rcases hkeyid with ⟨k, hk, hmem⟩ | ⟨i, hi, hmem⟩
  · have hk3 : k = "warmup" ∨ k = "cooldown" ∨ k = "recovery" := by
      simpa [EASY_STEP_KEYS] using hmem
    rcases hk3 with h | h | h <;> subst h <;>
      simp [is_easy_step, hst, hk, is_easy_fields, hnohard, EASY_STEP_KEYS,
        show strToLower "warmup" = "warmup" from rfl,
        show strToLower "cooldown" = "cooldown" from rfl,
        show strToLower "recovery" = "recovery" from rfl]
  · simp [is_easy_step, hst, is_easy_fields, hnohard, hi, hmem]

/-- Witness for C7: a cooldown leaf with a relaxed description is easy. -/
theorem easy_type_rule_witness :
    is_easy_step { blankStep with
      stepType := JVal.val { stepTypeKey := some "cooldown", stepTypeId := some 2 },
      description := some "Nice and relaxed" } = Except.ok true :=
  easy_type_rule
    { blankStep with
      stepType := JVal.val { stepTypeKey := some "cooldown", stepTypeId := some 2 },
      description := some "Nice and relaxed" }
    { stepTypeKey := some "cooldown", stepTypeId := some 2 }
    rfl (by rfl) (Or.inl ⟨"cooldown", rfl, by simp [EASY_STEP_KEYS]⟩)

/-- Counterexample to C3 as stated: a leaf whose type key is interval is
classified easy although its description contains no easy-effort marker,
because its type id 3 hits the easy-id check, which runs before the interval
rule. -/
theorem interval_rule_counterexample :
    intervalId3Step.stepType =
        JVal.val { stepTypeKey := some "interval", stepTypeId := some 3 } ∧
      is_easy_step intervalId3Step = Except.ok true ∧
      has_easy_pattern (step_description intervalId3Step) = false ∧
      has_hard_pattern (step_description intervalId3Step) = false :=
  ⟨rfl, rfl, rfl, rfl⟩

/-- C3 amended: for a leaf step whose type key lowers to interval and whose
type id is not one of the reserved easy ids 1, 2, 3, the classifier returns
easy exactly when the description contains an easy-effort marker and no
hard-effort marker. -/
theorem interval_rule_amended (f : StepFields) (st : StepType) (k : String)
    (hst : f.stepType = JVal.val st) (hk : st.stepTypeKey = some k)
    (hkey : strToLower k = "interval")
    (hid : ∀ i, st.stepTypeId = some i → i ∉ EASY_STEP_IDS) :
    is_easy_step f = Except.ok true ↔
      has_easy_pattern (step_description f) = true ∧
        has_hard_pattern (step_description f) = false := by
  have hie : is_easy_step f =
      Except.ok (is_easy_fields "interval" st.stepTypeId (step_description f)) := by
    simp [is_easy_step, hst, hk, hkey]
  rw [hie]
  unfold is_easy_fields
  cases hhard : has_hard_pattern (step_description f) with
  | true => simp [hhard]
  | false =>
    have hkc : ("interval" : String) ∉ EASY_STEP_KEYS := by decide
    cases hi : st.stepTypeId with
    | none => simp [hkc, hhard]
    | some i =>
      have hni : i ∉ EASY_STEP_IDS := hid i hi
      simp [hkc, hni, hhard]

/-- Witness for the amended C3: an interval leaf (id 6) whose description
says Easy jog is classified easy, with both sides of the iff holding. -/
theorem interval_rule_amended_witness :
    is_easy_step (intervalStep (some "Easy jog")) = Except.ok true ↔
      has_easy_pattern (step_description (intervalStep (some "Easy jog"))) = true ∧
        has_hard_pattern (step_description (intervalStep (some "Easy jog"))) = false :=
  interval_rule_amended (intervalStep (some "Easy jog"))
    { stepTypeKey := some "interval", stepTypeId := some 6 } "interval"
    rfl rfl rfl (fun i hi => by cases hi; decide)

/-- Counterexample to C8 as stated: on a leaf whose stepType is bound to
null, the classifier, the decision and the tree walk all raise instead of
treating the field as absent. -/
theorem totality_counterexample :
    nullTypeStep.stepType = JVal.null ∧
    is_easy_step nullTypeStep =
      Except.error "AttributeError: NoneType object has no attribute get" ∧
    should_add_hr_zone nullTypeStep =
      Except.error "AttributeError: NoneType object has no attribute get" ∧
    process_workout_steps DEFAULT_HR_ZONE [Step.leaf nullTypeStep] 0 =
      Except.error "AttributeError: NoneType object has no attribute get" :=
  ⟨rfl, rfl, rfl, rfl⟩

/-- C8 amended: classification and the tree walk never raise as long as no
step has its stepType key bound to null; absent description, target,
end-condition or stepType (and `has_no_target`, which is total by type) are
all tolerated. -/
theorem totality_on_partial_data (hr_zone : Int) (f : StepFields) (steps : List Step)
    (n : Nat) (hf : f.stepType ≠ JVal.null) (hsteps : steps_no_null_type steps = true) :
    (∃ b, is_easy_step f = Except.ok b) ∧
    (∃ b, should_add_hr_zone f = Except.ok b) ∧
    (∃ r, process_workout_steps hr_zone steps n = Except.ok r) := by
  have h1 : ∃ b, is_easy_step f = Except.ok b := by
    cases hst : f.stepType with
    | null => exact absurd hst hf
    | absent =>
        exact ⟨is_easy_fields "" none (step_description f), by simp [is_easy_step, hst]⟩
    | val st =>
        exact ⟨is_easy_fields (strToLower (st.stepTypeKey.getD "")) st.stepTypeId
          (step_description f), by simp [is_easy_step, hst]⟩
  obtain ⟨b, hb⟩ := h1
  exact ⟨⟨b, hb⟩, ⟨b && has_no_target f, by simp [should_add_hr_zone, hb]⟩,
    process_workout_steps_total hr_zone steps n hsteps⟩

/-- Witness for the amended C8: a fully blank step and a small tree with
absent optional fields are processed without error. -/
theorem totality_on_partial_data_witness :
    (∃ b, is_easy_step blankStep = Except.ok b) ∧
    (∃ b, should_add_hr_zone blankStep = Except.ok b) ∧
    (∃ r, process_workout_steps 2
      [Step.leaf blankStep, Step.group blankStep [Step.leaf warmupStep]] 0 =
        Except.ok r) :=
  totality_on_partial_data 2 blankStep
    [Step.leaf blankStep, Step.group blankStep [Step.leaf warmupStep]] 0
    (by decide) (by rfl)

/-- C10: A step carrying the child-steps key is treated purely as a repeat
group: on success its own fields come back unchanged whatever they are, the
count delta is exactly the qualifying-leaf count of its descendants, and a
group with an empty child list is returned as-is with no count change even
when its own fields would qualify a leaf. -/
theorem group_key_shields_step (hr_zone : Int) (f : StepFields) (cs : List Step)
    (n : Nat) (s2 : Step) (n2 : Nat)
    (h : processStep hr_zone (Step.group f cs) n = Except.ok (s2, n2)) :
    (∃ ns, s2 = Step.group f ns ∧ n2 = n + steps_qualifying_count cs) ∧
      processStep hr_zone (Step.group f []) n = Except.ok (Step.group f [], n) := by
  constructor
  · cases hcs : process_workout_steps hr_zone cs n with
    | error e => simp [processStep, hcs] at h
    | ok p =>
      obtain ⟨ns, n1⟩ := p
      simp only [processStep, hcs] at h
      obtain ⟨hs2, hn2⟩ := Prod.mk.injEq .. ▸ (Except.ok.injEq .. ▸ h)
      refine ⟨ns, hs2.symm, ?_⟩
      rw [← hn2]
      exact (process_workout_steps_sound hr_zone cs n ns n1 hcs).1
  · rfl

/-- Witness for C10: a group whose own fields are a qualifying warmup step
with no target, and an empty child list, is left alone with count 0. -/
theorem group_key_shields_step_witness :
    (∃ ns, Step.group warmupStep [] = Step.group warmupStep ns ∧
        (0 : Nat) = 0 + steps_qualifying_count []) ∧
      processStep 2 (Step.group warmupStep []) 0 =
        Except.ok (Step.group warmupStep [], 0) :=
  group_key_shields_step 2 warmupStep [] 0 (Step.group warmupStep []) 0 (by rfl)

/-- C9: Per-workout recoverable push failure: when one workout in the batch
reaches the external update and the update fails, the loop reports the
failure for that workout, does not count it among updated workouts (the
`processed` accumulator reaches the rest of the batch unchanged at `p1`,
while the failing workout's steps still enter `modified_total`), continues
with the remaining workouts, and still ends with the aggregate summary. -/
theorem push_failure_recoverable (hr_zone : Int) (filter_name : Option String)
    (fetch : Option Int → Workout) (upd : Workout → Except String Unit)
    (ws1 ws2 : List WorkoutSummary) (w : WorkoutSummary)
    (evts1 evts2 : List Event) (m1 p1 mT pT : Nat) (mw : Workout) (c : Nat) (err : String)
    (h1 : process_workouts_loop hr_zone false filter_name fetch upd ws1 0 0 =
      Except.ok (evts1, m1, p1))
    (hsport : sport_type_of w = "running")
    (hfilter : name_filtered_out filter_name (w.workoutName.getD "Unknown") = false)
    (hmod : modify_workout hr_zone (fetch w.workoutId) = Except.ok (mw, c))
    (hc : c ≠ 0)
    (hupd : upd mw = Except.error err)
    (h2 : process_workouts_loop hr_zone false filter_name fetch upd ws2 (m1 + c) p1 =
      Except.ok (evts2, mT, pT)) :
    process_all_workouts hr_zone false filter_name fetch upd (ws1 ++ w :: ws2) =
      Except.ok (evts1 ++
        [Event.processing (w.workoutName.getD "Unknown") w.workoutId,
         Event.modifiedSteps c hr_zone, Event.updating, Event.updateFailed err] ++
        evts2 ++ [Event.summary mT pT]) := by
  have hcz : (c == 0) = false := by
    simpa using hc
  have hone : process_one hr_zone false filter_name fetch upd w =
      Except.ok ([Event.processing (w.workoutName.getD "Unknown") w.workoutId,
        Event.modifiedSteps c hr_zone, Event.updating, Event.updateFailed err], c, 0) := by
    simp [process_one, hsport, hfilter, hmod, hcz, hupd]
  have hw2 : process_workouts_loop hr_zone false filter_name fetch upd (w :: ws2) m1 p1 =
      Except.ok ([Event.processing (w.workoutName.getD "Unknown") w.workoutId,
        Event.modifiedSteps c hr_zone, Event.updating, Event.updateFailed err] ++ evts2,
        mT, pT) := by
    simp only [process_workouts_loop]
    rw [hone]
    dsimp only
    simp only [Nat.add_zero]
    rw [h2]
  have hall := process_workouts_loop_append hr_zone false filter_name fetch upd
    ws1 (w :: ws2) 0 0 evts1 m1 p1
    ([Event.processing (w.workoutName.getD "Unknown") w.workoutId,
      Event.modifiedSteps c hr_zone, Event.updating, Event.updateFailed err] ++ evts2)
    mT pT h1 hw2
  simp only [process_all_workouts]
  rw [hall]
  simp [List.append_assoc]

/-- Witness for C9: in a two-workout batch whose first update fails, the
failure is reported, the second workout is still processed and updated, and
the summary counts 2 modified steps but only 1 updated workout. -/
theorem push_failure_recoverable_witness :
    process_all_workouts 2 false none fetchOracle updOracle [wsFail, wsOk] =
      Except.ok ([Event.processing "Runna A" (some 11), Event.modifiedSteps 1 2,
        Event.updating, Event.updateFailed "HTTP 500",
        Event.processing "Runna B" (some 12), Event.modifiedSteps 1 2,
        Event.updating, Event.updated, Event.summary 2 1]) := by
  have h := push_failure_recoverable 2 none fetchOracle updOracle [] [wsOk] wsFail
    [] [Event.processing "Runna B" (some 12), Event.modifiedSteps 1 2,
        Event.updating, Event.updated]
    0 0 2 1 (fetchOracleMut (some 11)) 1 "HTTP 500"
    rfl rfl rfl rfl (by decide) rfl rfl
  simpa [wsFail, wsOk] using h
